import Mathlib

/-
Verification of the hubspot-crm-service reliability core: a shallow
embedding of the OAuth token lifecycle manager (app/services/oauth_manager.py),
the HubSpot HTTP request executor (app/integrations/hubspot_api.py), and the
inbound rate limiter, together with theorems about their behaviour.

Time is modelled as an integer Unix timestamp passed explicitly; the network
is modelled as an environment function answering each outbound call in order.
-/

/-- Body of a HubSpot OAuth token endpoint response, as consumed by
refresh_access_token: the access_token key (none means the key is absent,
which makes the Python raise KeyError), the optional rotated refresh_token,
and the optional expires_in lifetime in seconds. -/
structure TokenBody where
  access_token : Option String
  refresh_token : Option String
  expires_in : Option Int
deriving Repr, DecidableEq

/-- Outcome of the POST to the token endpoint: a transport-level failure
(requests.exceptions.RequestException), or an HTTP response with a status
code and a body. -/
inductive TokenResponse where
  | transportError
  | http (status : Nat) (body : TokenBody)
deriving Repr, DecidableEq

/-- The typed errors of app.utils.errors raised by the core, plus the
unhandled Python exceptions that can escape (KeyError on a missing
access_token key, a JSON decode failure on a success body). -/
inductive AppError where
  | serviceUnavailable (message : String)
  | unauthorized (message : String)
  | notFound (message : String) (verboseMessage : String)
  | badRequest (message : String)
  | keyError
  | jsonError
deriving Repr, DecidableEq

/-- In-memory state of an OAuthManager instance (oauth_manager.py lines
14-20): credentials, the cached access token (None initially) and the Unix
timestamp at which it expires (0 initially). -/
structure OAuthManager where
  client_id : String
  client_secret : String
  refresh_token : String
  access_token : Option String
  token_expires_at : Int
deriving Repr, DecidableEq

/-- Python truthiness of the optional access token: None and the empty
string are both falsy. -/
def pyTruthy : Option String → Bool
  | none => false
  | some s => !(s == "")

namespace OAuthManager

/-- The guard on line 29 of oauth_manager.py: refresh when the cached token
is falsy or the current time has reached the stored expiry. -/
def needsRefresh (s : OAuthManager) (now : Int) : Bool :=
  !pyTruthy s.access_token || decide (s.token_expires_at ≤ now)

/-- OAuthManager.refresh_access_token (lines 36-70): exchanges the stored
refresh token at the token endpoint. Returns the possibly-updated state and
the raised error, if any; the state is returned unchanged whenever an error
is raised, mirroring the fact that the Python raises before any mutation. -/
def refresh_access_token (s : OAuthManager) (now : Int) :
    TokenResponse → OAuthManager × Option AppError
  | .transportError =>
      (s, some (.serviceUnavailable "Failed to reach HubSpot token endpoint."))
  | .http status body =>
      if status ≠ 200 then
        (s, some (.unauthorized "Invalid or expired HubSpot refresh token."))
      else
        match body.access_token with
        | none => (s, some .keyError)
        | some tok =>
            ({ s with
                access_token := some tok,
                refresh_token := body.refresh_token.getD s.refresh_token,
                token_expires_at := now + body.expires_in.getD 1800 - 60 },
             none)

/-- Result of get_access_token: the final manager state, the raised error if
the refresh raised, the returned token when no error was raised, and the
number of network calls made to the token endpoint. -/
structure GetTokenResult where
  state : OAuthManager
  error : Option AppError
  token : Option String
  networkCalls : Nat
deriving Repr, DecidableEq

/-- OAuthManager.get_access_token (lines 23-33): returns the cached token,
refreshing first when it is missing or expired. The resp argument is the
token endpoint's answer, consumed only if a refresh happens. -/
def get_access_token (s : OAuthManager) (now : Int) (resp : TokenResponse) :
    GetTokenResult :=
  if s.needsRefresh now then
    match s.refresh_access_token now resp with
    | (s', some e) => ⟨s', some e, none, 1⟩
    | (s', none) => ⟨s', none, s'.access_token, 1⟩
  else ⟨s, none, s.access_token, 0⟩

end OAuthManager

/-- Sample manager holding a valid cached token at time 0. -/
def mgrValid : OAuthManager :=
  ⟨"id", "secret", "rt", some "tok", 100⟩

/-- Sample manager in its initial state: no cached token, expiry 0. -/
def mgrStale : OAuthManager :=
  ⟨"id", "secret", "rt", none, 0⟩

/-- Sample successful token endpoint body. -/
def tokenOkBody : TokenBody :=
  ⟨some "newTok", some "newRt", some 3600⟩

/-- Sample successful token endpoint response. -/
def tokenOkResp : TokenResponse :=
  .http 200 tokenOkBody

/-- C1: get_access_token performs a network refresh if and only if the
cached token is missing or the current time has reached the stored expiry;
with a valid cached token it returns that token with zero network calls, and
otherwise it makes exactly one refresh call and, when that call returns
normally, hands back the newly stored token. -/
theorem C1_getToken_refresh_iff (s : OAuthManager) (now : Int)
    (resp : TokenResponse) :
    ((s.get_access_token now resp).networkCalls = 0 ↔
        pyTruthy s.access_token = true ∧ now < s.token_expires_at)
    ∧ (pyTruthy s.access_token = true → now < s.token_expires_at →
        s.get_access_token now resp = ⟨s, none, s.access_token, 0⟩)
    ∧ (¬ (pyTruthy s.access_token = true ∧ now < s.token_expires_at) →
        (s.get_access_token now resp).networkCalls = 1
        ∧ ((s.get_access_token now resp).error = none →
            (s.get_access_token now resp).token =
              (s.get_access_token now resp).state.access_token)) := by
  unfold OAuthManager.get_access_token OAuthManager.needsRefresh
  by_cases hTok : pyTruthy s.access_token = true
  · by_cases hExp : s.token_expires_at ≤ now
    · have hlt : ¬ now < s.token_expires_at := not_lt.mpr hExp
      simp only [hTok, hExp]
      rcases h : s.refresh_access_token now resp with ⟨s', e⟩
      cases e <;> simp [hlt]
    · have hlt : now < s.token_expires_at := lt_of_not_le hExp
      simp [hTok, hExp, hlt]
  · have hTok' : pyTruthy s.access_token = false := by
      cases h : pyTruthy s.access_token
      · rfl
      · exact absurd h hTok
    simp only [hTok', Bool.not_false, Bool.true_or, if_pos]
    rcases h : s.refresh_access_token now resp with ⟨s', e⟩
    cases e <;> simp [hTok]

/-- Witness for C1 at a concrete valid cached token. -/
theorem C1_witness :
    mgrValid.get_access_token 0 tokenOkResp = ⟨mgrValid, none, some "tok", 0⟩ :=
  (C1_getToken_refresh_iff mgrValid 0 tokenOkResp).2.1 (by decide) (by decide)

/-- C5: refresh_access_token fails with a ServiceUnavailable error on a
transport-level failure, fails with an Unauthorized error on any non-200
status from the token endpoint, and in both cases returns the manager state
completely unchanged. -/
theorem C5_refresh_failure_paths (s : OAuthManager) (now : Int) :
    s.refresh_access_token now .transportError =
      (s, some (.serviceUnavailable "Failed to reach HubSpot token endpoint."))
    ∧ ∀ status body, status ≠ 200 →
        s.refresh_access_token now (.http status body) =
          (s, some (.unauthorized "Invalid or expired HubSpot refresh token.")) := by
  constructor
  · rfl
  · intro status body h
    simp [OAuthManager.refresh_access_token, h]

/-- Witness for C5 at a concrete 400 rejection from the token endpoint. -/
theorem C5_witness :
    mgrValid.refresh_access_token 0 (.http 400 tokenOkBody) =
      (mgrValid, some (.unauthorized "Invalid or expired HubSpot refresh token.")) :=
  (C5_refresh_failure_paths mgrValid 0).2 400 tokenOkBody (by decide)

/-- C6: on a 200 token response carrying an access_token, refresh raises
nothing, stores the returned access token, overwrites the stored refresh
token only when the response carries a refresh_token field (keeping the old
one otherwise), and sets the expiry to now plus the declared lifetime
(default 1800 when absent) minus the 60-second safety margin. -/
theorem C6_refresh_success (s : OAuthManager) (now : Int) (body : TokenBody)
    (tok : String) (hTok : body.access_token = some tok) :
    (s.refresh_access_token now (.http 200 body)).2 = none
    ∧ (s.refresh_access_token now (.http 200 body)).1.access_token = some tok
    ∧ (∀ rt, body.refresh_token = some rt →
        (s.refresh_access_token now (.http 200 body)).1.refresh_token = rt)
    ∧ (body.refresh_token = none →
        (s.refresh_access_token now (.http 200 body)).1.refresh_token =
          s.refresh_token)
    ∧ (s.refresh_access_token now (.http 200 body)).1.token_expires_at =
        now + body.expires_in.getD 1800 - 60 := by
  refine ⟨?_, ?_, ?_, ?_, ?_⟩
  · simp [OAuthManager.refresh_access_token, hTok]
  · simp [OAuthManager.refresh_access_token, hTok]
  · intro rt hrt
    simp [OAuthManager.refresh_access_token, hTok, hrt]
  · intro hn
    simp [OAuthManager.refresh_access_token, hTok, hn]
  · simp [OAuthManager.refresh_access_token, hTok]

/-- Witness for C6 at a concrete successful refresh. -/
theorem C6_witness :
    (mgrValid.refresh_access_token 0 (.http 200 tokenOkBody)).1.token_expires_at
      = 3540 := by
  have h := (C6_refresh_success mgrValid 0 tokenOkBody "newTok" rfl).2.2.2.2
  simpa using h

/-- C10: whenever get_access_token raises no error, the value it returns is
the stored access token, is not None, and the stored expiry lies strictly in
the future, provided any successful refresh response declares a lifetime
exceeding the 60-second safety margin. -/
theorem C10_getToken_valid (s : OAuthManager) (now : Int) (resp : TokenResponse)
    (hLife : ∀ status body, resp = .http status body →
        60 < body.expires_in.getD 1800)
    (hOk : (s.get_access_token now resp).error = none) :
    (s.get_access_token now resp).token =
      (s.get_access_token now resp).state.access_token
    ∧ (s.get_access_token now resp).token ≠ none
    ∧ now < (s.get_access_token now resp).state.token_expires_at := by
  cases hr : s.needsRefresh now with
  | false =>
      have hTok : pyTruthy s.access_token = true := by
        unfold OAuthManager.needsRefresh at hr
        rcases Bool.or_eq_false_iff.mp hr with ⟨h1, _⟩
        simpa using h1
      have hExp : now < s.token_expires_at := by
        unfold OAuthManager.needsRefresh at hr
        rcases Bool.or_eq_false_iff.mp hr with ⟨_, h2⟩
        have := of_decide_eq_false h2
        omega
      have hres : s.get_access_token now resp = ⟨s, none, s.access_token, 0⟩ := by
        simp [OAuthManager.get_access_token, hr]
      rw [hres]
      refine ⟨rfl, ?_, hExp⟩
      cases hacc : s.access_token with
      | none => rw [hacc] at hTok; simp [pyTruthy] at hTok
      | some t => simp
  | true =>
      rcases hrr : s.refresh_access_token now resp with ⟨s', e⟩
      cases e with
      | some e' =>
          have hbad : (s.get_access_token now resp).error = some e' := by
            simp [OAuthManager.get_access_token, hr, hrr]
          rw [hOk] at hbad
          exact absurd hbad (by simp)
      | none =>
          have hres : s.get_access_token now resp = ⟨s', none, s'.access_token, 1⟩ := by
            simp [OAuthManager.get_access_token, hr, hrr]
          rw [hres]
          cases resp with
          | transportError => simp [OAuthManager.refresh_access_token] at hrr
          | http status body =>
              have hlife := hLife status body rfl
              by_cases hs : status = 200
              · subst hs
                cases hacc : body.access_token with
                | none => simp [OAuthManager.refresh_access_token, hacc] at hrr
                | some tok =>
                    simp only [OAuthManager.refresh_access_token, hacc,
                      ne_eq, not_true_eq_false, if_false, if_neg] at hrr
                    have h1 : _ = s' := congrArg Prod.fst hrr
                    simp only at h1
                    rw [← h1]
                    refine ⟨rfl, by simp, ?_⟩
                    simp only
                    omega
              · simp [OAuthManager.refresh_access_token, hs] at hrr

/-- Witness for C10: starting from the initial stale state, a successful
refresh hands out the freshly stored token with a future expiry. -/
theorem C10_witness :
    (mgrStale.get_access_token 0 tokenOkResp).token =
      (mgrStale.get_access_token 0 tokenOkResp).state.access_token
    ∧ (mgrStale.get_access_token 0 tokenOkResp).token ≠ none
    ∧ (0 : Int) < (mgrStale.get_access_token 0 tokenOkResp).state.token_expires_at :=
  C10_getToken_valid mgrStale 0 tokenOkResp
    (by intro st b h; injection h with h1 h2; subst h2; decide)
    (by decide)

/-- A parsed JSON response body from the HubSpot API: the value of its
message key when that key holds a string, and the rest of the document,
kept opaque. -/
structure JsonVal where
  message : Option String
  rest : String
deriving Repr, DecidableEq

/-- Outcome of one HTTP attempt against the HubSpot API: a transport-level
failure, or a response with its status code, its parsed JSON body (none when
the body is not valid JSON) and its raw text. -/
inductive HttpOutcome where
  | transportError
  | response (status : Nat) (json : Option JsonVal) (text : String)
deriving Repr, DecidableEq

/-- The message chosen for a non-404 client error (hubspot_api.py lines
75-80): the truthy message field of a JSON body, the generic client error
message when the JSON body has no truthy message, and the raw response text
when the body is not valid JSON. -/
def clientErrorMessage (json : Option JsonVal) (text : String) : String :=
  match json with
  | some j =>
      match j.message with
      | some m => if m == "" then "Client error from HubSpot" else m
      | none => "Client error from HubSpot"
  | none => text

deriving instance DecidableEq for Except

/-- Result and trace of HubSpotAPI.request: the returned body or raised
error, the backoff sleeps performed in order, the number of HTTP attempts
made, the number of token-endpoint calls made, and the final backoff
delay. -/
structure ReqResult where
  result : Except AppError JsonVal
  sleeps : List Nat
  httpCalls : Nat
  refreshCalls : Nat
  finalWait : Nat
deriving Repr, DecidableEq

/-- The timeout passed to requests.request on line 42 of hubspot_api.py, a
literal fixed inside the method body. -/
def REQUEST_TIMEOUT : Nat := 10

/-- The initial backoff delay set on line 26 of hubspot_api.py, a literal
fixed inside the method body. -/
def BASE_WAIT : Nat := 5

namespace HubSpotAPI

/-- The token acquisition at the top of each loop iteration (line 29 of
hubspot_api.py): get_access_token, which refreshes when the cached token is
missing or expired. Yields the manager state and next token-endpoint index
on success, or the raised error and next index on failure. -/
def tokenStep (tokenResp : Nat → TokenResponse) (now : Int) (s : OAuthManager)
    (rIdx : Nat) : (OAuthManager × Nat) ⊕ (AppError × Nat) :=
  if s.needsRefresh now then
    match s.refresh_access_token now (tokenResp rIdx) with
    | (_, some e) => .inr (e, rIdx + 1)
    | (s', none) => .inl (s', rIdx + 1)
  else .inl (s, rIdx)

/-- The retry loop of HubSpotAPI.request (lines 28-105). The environment
functions answer the i-th token-endpoint call and the i-th HTTP attempt;
remaining is max_retries minus the attempts already made, wait is the
current backoff delay, rIdx and hIdx index the environment, and sleeps
accumulates the sleeps performed so far. -/
def requestLoop (max_retries : Nat) (tokenResp : Nat → TokenResponse)
    (httpResp : Nat → HttpOutcome) (now : Int) :
    Nat → OAuthManager → Nat → Nat → Nat → List Nat → ReqResult
  | 0, _, wait, rIdx, hIdx, sleeps =>
      ⟨.error (.serviceUnavailable
          ("Exceeded max retries (" ++ toString max_retries ++
            ") for HubSpot API request.")),
        sleeps, hIdx, rIdx, wait⟩
  | remaining + 1, s, wait, rIdx, hIdx, sleeps =>
      match tokenStep tokenResp now s rIdx with
      | .inr (e, r1) => ⟨.error e, sleeps, hIdx, r1, wait⟩
      | .inl (s1, r1) =>
          match httpResp hIdx with
          | .transportError =>
              ⟨.error (.serviceUnavailable "Failed to connect to HubSpot API."),
                sleeps, hIdx + 1, r1, wait⟩
          | .response status json text =>
              if status = 200 ∨ status = 201 then
                match json with
                | some j => ⟨.ok j, sleeps, hIdx + 1, r1, wait⟩
                | none => ⟨.error .jsonError, sleeps, hIdx + 1, r1, wait⟩
              else if status = 401 then
                match s1.refresh_access_token now (tokenResp r1) with
                | (_, some e) => ⟨.error e, sleeps, hIdx + 1, r1 + 1, wait⟩
                | (s2, none) =>
                    requestLoop max_retries tokenResp httpResp now remaining s2
                      wait (r1 + 1) (hIdx + 1) sleeps
              else if status = 429 then
                requestLoop max_retries tokenResp httpResp now remaining s1
                  (wait * 2) r1 (hIdx + 1) (sleeps ++ [wait])
              else if status = 404 then
                ⟨.error (.notFound "Resource not found in HubSpot" text),
                  sleeps, hIdx + 1, r1, wait⟩
              else if 400 ≤ status ∧ status < 500 then
                ⟨.error (.badRequest (clientErrorMessage json text)),
                  sleeps, hIdx + 1, r1, wait⟩
              else if 500 ≤ status then
                requestLoop max_retries tokenResp httpResp now remaining s1
                  (wait * 2) r1 (hIdx + 1) (sleeps ++ [wait])
              else
                ⟨.error (.serviceUnavailable "Unexpected HubSpot API response."),
                  sleeps, hIdx + 1, r1, wait⟩

/-- HubSpotAPI.request with its max_retries argument made explicit. The
attempt counter starts at 0 and the backoff delay at BASE_WAIT. -/
def request (tokenResp : Nat → TokenResponse) (httpResp : Nat → HttpOutcome)
    (s : OAuthManager) (now : Int) (max_retries : Nat) : ReqResult :=
  requestLoop max_retries tokenResp httpResp now max_retries s BASE_WAIT 0 0 []

/-- HubSpotAPI.request as invoked without a max_retries argument, taking the
declared default of 3. -/
def requestDefault (tokenResp : Nat → TokenResponse)
    (httpResp : Nat → HttpOutcome) (s : OAuthManager) (now : Int) : ReqResult :=
  request tokenResp httpResp s now 3

end HubSpotAPI

/-- The sleeps produced by a run of consecutive backoff retries: one sleep
of the current delay per retryable response, the delay doubling each time. -/
def backoffSleeps (wait : Nat) : Nat → List Nat
  | 0 => []
  | n + 1 => wait :: backoffSleeps (wait * 2) n

/-- With a truthy cached token whose expiry is still in the future, the
token acquisition step refreshes nothing and consumes no token response. -/
theorem tokenStep_valid (tokenResp : Nat → TokenResponse) (now : Int)
    (s : OAuthManager) (rIdx : Nat) (hTok : pyTruthy s.access_token = true)
    (hExp : now < s.token_expires_at) :
    HubSpotAPI.tokenStep tokenResp now s rIdx = .inl (s, rIdx) := by
  have h1 : s.needsRefresh now = false := by
    simp only [OAuthManager.needsRefresh, hTok, Bool.not_true, Bool.false_or,
      decide_eq_false_iff_not]
    omega
  simp [HubSpotAPI.tokenStep, h1]

/-- C2: when an attempt receives HTTP 401 and the subsequent token refresh
succeeds, the loop re-runs the same request against the next state with the
backoff delay unchanged and no sleep performed, having consumed exactly one
further token-endpoint call and one attempt slot. -/
theorem C2_refresh_on_401 (max_retries : Nat) (tokenResp : Nat → TokenResponse)
    (httpResp : Nat → HttpOutcome) (now : Int) (s s2 : OAuthManager)
    (remaining wait rIdx hIdx : Nat) (sleeps : List Nat) (j : Option JsonVal)
    (t : String) (hTok : pyTruthy s.access_token = true)
    (hExp : now < s.token_expires_at)
    (hResp : httpResp hIdx = .response 401 j t)
    (hRefresh : s.refresh_access_token now (tokenResp rIdx) = (s2, none)) :
    HubSpotAPI.requestLoop max_retries tokenResp httpResp now (remaining + 1) s
        wait rIdx hIdx sleeps =
      HubSpotAPI.requestLoop max_retries tokenResp httpResp now remaining s2
        wait (rIdx + 1) (hIdx + 1) sleeps := by
  simp [HubSpotAPI.requestLoop,
    tokenStep_valid tokenResp now s rIdx hTok hExp, hResp, hRefresh]

/-- The manager state reached by refreshing mgrValid against tokenOkResp. -/
def mgrValidRefreshed : OAuthManager :=
  ⟨"id", "secret", "newRt", some "newTok", 3540⟩

/-- Witness for C2 at a concrete 401 answer with a successful refresh. -/
theorem C2_witness :
    HubSpotAPI.requestLoop 3 (fun _ => tokenOkResp)
        (fun _ => .response 401 none "auth") 0 (1 + 1) mgrValid 5 0 0 [] =
      HubSpotAPI.requestLoop 3 (fun _ => tokenOkResp)
        (fun _ => .response 401 none "auth") 0 1 mgrValidRefreshed 5 1 1 [] :=
  C2_refresh_on_401 3 (fun _ => tokenOkResp) (fun _ => .response 401 none "auth")
    0 mgrValid mgrValidRefreshed 1 5 0 0 [] none "auth"
    (by decide) (by decide) rfl (by decide)

/-- When every HTTP attempt from index hIdx onward answers with a 5xx status
and the cached token stays valid, the loop sleeps the current delay and
doubles it on every attempt, and exhausts its remaining attempts into the
retry-exhaustion failure. -/
theorem requestLoop_all5xx (max_retries : Nat) (tokenResp : Nat → TokenResponse)
    (httpResp : Nat → HttpOutcome) (now : Int)
    (hAll : ∀ i, ∃ st j t, httpResp i = .response st j t ∧ 500 ≤ st) :
    ∀ remaining (s : OAuthManager) wait rIdx hIdx sleeps,
      pyTruthy s.access_token = true → now < s.token_expires_at →
      HubSpotAPI.requestLoop max_retries tokenResp httpResp now remaining s wait
          rIdx hIdx sleeps =
        ⟨.error (.serviceUnavailable
            ("Exceeded max retries (" ++ toString max_retries ++
              ") for HubSpot API request.")),
          sleeps ++ backoffSleeps wait remaining, hIdx + remaining, rIdx,
          wait * 2 ^ remaining⟩ := by
  intro remaining
  induction remaining with
  | zero =>
      intro s wait rIdx hIdx sleeps hTok hExp
      simp [HubSpotAPI.requestLoop, backoffSleeps]
  | succ n ih =>
      intro s wait rIdx hIdx sleeps hTok hExp
      obtain ⟨st, j, t, hEq, hSt⟩ := hAll hIdx
      have h200 : ¬ (st = 200 ∨ st = 201) := by omega
      have h401 : ¬ st = 401 := by omega
      have h429 : ¬ st = 429 := by omega
      have h404 : ¬ st = 404 := by omega
      have h4xx : ¬ (400 ≤ st ∧ st < 500) := by omega
      rw [HubSpotAPI.requestLoop,
        tokenStep_valid tokenResp now s rIdx hTok hExp]
      simp only [hEq, if_neg h200, if_neg h401, if_neg h429, if_neg h404,
        if_neg h4xx, if_pos hSt]
      rw [ih s (wait * 2) rIdx (hIdx + 1) (sleeps ++ [wait]) hTok hExp]
      have hlist : (sleeps ++ [wait]) ++ backoffSleeps (wait * 2) n =
          sleeps ++ backoffSleeps wait (n + 1) := by
        simp [backoffSleeps]
      have hpow : wait * 2 * 2 ^ n = wait * 2 ^ (n + 1) := by ring
      have hadd : hIdx + 1 + n = hIdx + (n + 1) := by omega
      rw [hlist, hpow, hadd]

/-- C3: when all max_retries attempts answer 5xx, the request fails with a
ServiceUnavailable error whose message cites exceeding max retries, after
performing the doubling backoff sleeps starting from the base delay. -/
theorem C3_exhausted_5xx (tokenResp : Nat → TokenResponse)
    (httpResp : Nat → HttpOutcome) (s : OAuthManager) (now : Int)
    (max_retries : Nat) (hTok : pyTruthy s.access_token = true)
    (hExp : now < s.token_expires_at)
    (hAll : ∀ i, ∃ st j t, httpResp i = .response st j t ∧ 500 ≤ st) :
    HubSpotAPI.request tokenResp httpResp s now max_retries =
      ⟨.error (.serviceUnavailable
          ("Exceeded max retries (" ++ toString max_retries ++
            ") for HubSpot API request.")),
        backoffSleeps BASE_WAIT max_retries, max_retries, 0,
        BASE_WAIT * 2 ^ max_retries⟩ := by
  unfold HubSpotAPI.request
  rw [requestLoop_all5xx max_retries tokenResp httpResp now hAll max_retries s
    BASE_WAIT 0 0 [] hTok hExp]
  simp

/-- Witness for C3: two attempts, both answered 503, sleep 5 then 10 and end
in the exhaustion failure. -/
theorem C3_witness :
    HubSpotAPI.request (fun _ => tokenOkResp)
        (fun _ => .response 503 none "server err") mgrValid 0 2 =
      ⟨.error (.serviceUnavailable
          "Exceeded max retries (2) for HubSpot API request."),
        [5, 10], 2, 0, 20⟩ := by
  rw [C3_exhausted_5xx (fun _ => tokenOkResp)
    (fun _ => .response 503 none "server err") mgrValid 0 2 (by decide)
    (by decide) (fun i => ⟨503, none, "server err", rfl, by omega⟩)]
  rfl

/-- Counterexample to C4 as stated. A 429 response is a 4xx other than 404
and 401, yet the request does not fail with a BadRequest error: it sleeps
the backoff delay and retries, here completing successfully on the second
attempt. And for a 422 whose JSON body has no message field, the BadRequest
error carries the generic client error message rather than the raw response
text, discarding the upstream body. -/
theorem C4_counterexample :
    HubSpotAPI.request (fun _ => tokenOkResp)
        (fun i => if i = 0 then .response 429 none "rate"
          else .response 200 (some ⟨none, "ok"⟩) "ok") mgrValid 0 3 =
      ⟨.ok ⟨none, "ok"⟩, [5], 2, 0, 10⟩
    ∧ HubSpotAPI.request (fun _ => tokenOkResp)
        (fun _ => .response 422 (some ⟨none, "detail"⟩) "raw detail body")
        mgrValid 0 3 =
      ⟨.error (.badRequest "Client error from HubSpot"), [], 1, 0, 5⟩
    ∧ "Client error from HubSpot" ≠ "raw detail body" :=
  ⟨by decide, by decide, by decide⟩

/-- C4 as amended: for a 4xx status other than 404, 401 and 429 the request
fails immediately, with no retry and no sleep, with a BadRequest error whose
message is the truthy message field of a JSON body when one is present, the
raw response text when the body is not valid JSON, and the generic client
error message when the body is JSON without a truthy message field. -/
theorem C4_other_4xx_bad_request (max_retries : Nat)
    (tokenResp : Nat → TokenResponse) (httpResp : Nat → HttpOutcome)
    (now : Int) (s : OAuthManager) (remaining wait rIdx hIdx : Nat)
    (sleeps : List Nat) (status : Nat) (j : Option JsonVal) (t : String)
    (hTok : pyTruthy s.access_token = true)
    (hExp : now < s.token_expires_at)
    (hResp : httpResp hIdx = .response status j t)
    (h4 : 400 ≤ status) (h5 : status < 500) (h401 : status ≠ 401)
    (h404 : status ≠ 404) (h429 : status ≠ 429) :
    HubSpotAPI.requestLoop max_retries tokenResp httpResp now (remaining + 1) s
        wait rIdx hIdx sleeps =
      ⟨.error (.badRequest (clientErrorMessage j t)), sleeps, hIdx + 1, rIdx,
        wait⟩
    ∧ (∀ jv m, j = some jv → jv.message = some m → m ≠ "" →
        clientErrorMessage j t = m)
    ∧ (j = none → clientErrorMessage j t = t)
    ∧ (∀ jv, j = some jv → (jv.message = none ∨ jv.message = some "") →
        clientErrorMessage j t = "Client error from HubSpot") := by
  have h200 : ¬ (status = 200 ∨ status = 201) := by omega
  refine ⟨?_, ?_, ?_, ?_⟩
  · rw [HubSpotAPI.requestLoop,
      tokenStep_valid tokenResp now s rIdx hTok hExp]
    simp only [hResp, if_neg h200, if_neg h401, if_neg h429, if_neg h404,
      if_pos (And.intro h4 h5)]
  · intro jv m hjv hm hne
    simp [clientErrorMessage, hjv, hm, hne]
  · intro hj
    simp [clientErrorMessage, hj]
  · intro jv hjv hm
    rcases hm with hm | hm <;> simp [clientErrorMessage, hjv, hm]

/-- Witness for C4 as amended: a 422 carrying a message field fails at once
with that message. -/
theorem C4_witness :
    HubSpotAPI.requestLoop 3 (fun _ => tokenOkResp)
        (fun _ => .response 422 (some ⟨some "bad email", "r"⟩) "raw") 0
        (0 + 1) mgrValid 5 0 0 [] =
      ⟨.error (.badRequest "bad email"), [], 1, 0, 5⟩ := by
  have h := (C4_other_4xx_bad_request 3 (fun _ => tokenOkResp)
    (fun _ => .response 422 (some ⟨some "bad email", "r"⟩) "raw") 0 mgrValid
    0 5 0 0 [] 422 (some ⟨some "bad email", "r"⟩) "raw" (by decide) (by decide)
    rfl (by omega) (by omega) (by omega) (by omega) (by omega)).1
  simpa [clientErrorMessage] using h

/-- Every terminated run of the retry loop has made at most remaining
further HTTP attempts beyond the hIdx already made. -/
theorem requestLoop_httpCalls_le (max_retries : Nat)
    (tokenResp : Nat → TokenResponse) (httpResp : Nat → HttpOutcome)
    (now : Int) :
    ∀ remaining (s : OAuthManager) wait rIdx hIdx sleeps,
      (HubSpotAPI.requestLoop max_retries tokenResp httpResp now remaining s
          wait rIdx hIdx sleeps).httpCalls ≤ hIdx + remaining := by
  intro remaining
  induction remaining with
  | zero =>
      intro s wait rIdx hIdx sleeps
      simp [HubSpotAPI.requestLoop]
  | succ n ih =>
      intro s wait rIdx hIdx sleeps
      rw [HubSpotAPI.requestLoop]
      rcases hts : HubSpotAPI.tokenStep tokenResp now s rIdx with ⟨s1, r1⟩ | ⟨e, r1⟩
      · rcases hhr : httpResp hIdx with _ | ⟨st, j, t⟩
        · simp
        · by_cases h1 : st = 200 ∨ st = 201
          · simp only [if_pos h1]
            cases j <;> simp
          · simp only [if_neg h1]
            by_cases h2 : st = 401
            · simp only [if_pos h2]
              rcases hrf : s1.refresh_access_token now (tokenResp r1) with ⟨s2, e2⟩
              cases e2 with
              | none =>
                  have h := ih s2 wait (r1 + 1) (hIdx + 1) sleeps
                  simp only []
                  omega
              | some e3 => simp
            · simp only [if_neg h2]
              by_cases h3 : st = 429
              · simp only [if_pos h3]
                have h := ih s1 (wait * 2) r1 (hIdx + 1) (sleeps ++ [wait])
                omega
              · simp only [if_neg h3]
                by_cases h4 : st = 404
                · simp only [if_pos h4]
                  simp
                · simp only [if_neg h4]
                  by_cases h5 : 400 ≤ st ∧ st < 500
                  · simp only [if_pos h5]
                    simp
                  · simp only [if_neg h5]
                    by_cases h6 : 500 ≤ st
                    · simp only [if_pos h6]
                      have h := ih s1 (wait * 2) r1 (hIdx + 1) (sleeps ++ [wait])
                      omega
                    · simp only [if_neg h6]
                      simp
      · simp

/-- C9: the retry loop of request always terminates with a result, making at
most max_retries HTTP attempts before the exhaustion failure. -/
theorem C9_request_attempts_bounded (tokenResp : Nat → TokenResponse)
    (httpResp : Nat → HttpOutcome) (s : OAuthManager) (now : Int)
    (max_retries : Nat) :
    (HubSpotAPI.request tokenResp httpResp s now max_retries).httpCalls ≤
      max_retries := by
  have h := requestLoop_httpCalls_le max_retries tokenResp httpResp now
    max_retries s BASE_WAIT 0 0 []
  simpa using h

/-- Counterexample to C8 as stated: the same constructed executor, asked to
perform the same logical request twice with different call-time max_retries
arguments, behaves differently, so the maximum attempt count is accepted at
call time rather than fixed at construction. -/
theorem C8_counterexample :
    HubSpotAPI.request (fun _ => tokenOkResp)
        (fun _ => .response 503 none "down") mgrValid 0 1 ≠
      HubSpotAPI.request (fun _ => tokenOkResp)
        (fun _ => .response 503 none "down") mgrValid 0 2 := by
  decide

/-- C8 as amended: none of the retry configuration is supplied at
construction. The maximum attempt count is a per-call parameter whose
declared default is 3; the per-request timeout is the literal 10 fixed
inside the method; and the backoff of every call starts at the fixed base
delay 5 and doubles once per recorded sleep, regardless of any call-time
argument. -/
theorem C8_config_fixed_in_method :
    (∀ tokenResp httpResp (s : OAuthManager) (now : Int),
        HubSpotAPI.requestDefault tokenResp httpResp s now =
          HubSpotAPI.request tokenResp httpResp s now 3)
    ∧ REQUEST_TIMEOUT = 10 ∧ BASE_WAIT = 5
    ∧ (∀ tokenResp httpResp (s : OAuthManager) (now : Int) max_retries,
        (HubSpotAPI.request tokenResp httpResp s now max_retries).finalWait =
          BASE_WAIT * 2 ^
            (HubSpotAPI.request tokenResp httpResp s now
              max_retries).sleeps.length) := by
  refine ⟨fun _ _ _ _ => rfl, rfl, rfl, ?_⟩
  intro tokenResp httpResp s now max_retries
  have key : ∀ remaining (s : OAuthManager) wait rIdx hIdx sleeps,
      ∃ k, (HubSpotAPI.requestLoop max_retries tokenResp httpResp now remaining
          s wait rIdx hIdx sleeps).sleeps.length = sleeps.length + k
        ∧ (HubSpotAPI.requestLoop max_retries tokenResp httpResp now remaining
            s wait rIdx hIdx sleeps).finalWait = wait * 2 ^ k := by
    intro remaining
    induction remaining with
    | zero =>
        intro s wait rIdx hIdx sleeps
        exact ⟨0, by simp [HubSpotAPI.requestLoop]⟩
    | succ n ih =>
        intro s wait rIdx hIdx sleeps
        rw [HubSpotAPI.requestLoop]
        rcases hts : HubSpotAPI.tokenStep tokenResp now s rIdx with ⟨s1, r1⟩ | ⟨e, r1⟩
        · rcases hhr : httpResp hIdx with _ | ⟨st, j, t⟩
          · exact ⟨0, by simp⟩
          · by_cases h1 : st = 200 ∨ st = 201
            · simp only [if_pos h1]
              cases j
              · exact ⟨0, by simp⟩
              · exact ⟨0, by simp⟩
            · simp only [if_neg h1]
              by_cases h2 : st = 401
              · simp only [if_pos h2]
                rcases hrf : s1.refresh_access_token now (tokenResp r1) with ⟨s2, e2⟩
                cases e2 with
                | none => exact ih s2 wait (r1 + 1) (hIdx + 1) sleeps
                | some e3 => exact ⟨0, by simp⟩
              · simp only [if_neg h2]
                by_cases h3 : st = 429
                · simp only [if_pos h3]
                  obtain ⟨k, hk1, hk2⟩ := ih s1 (wait * 2) r1 (hIdx + 1)
                    (sleeps ++ [wait])
                  refine ⟨k + 1, ?_, ?_⟩
                  · rw [hk1]; simp; omega
                  · rw [hk2]; ring
                · simp only [if_neg h3]
                  by_cases h4 : st = 404
                  · simp only [if_pos h4]
                    exact ⟨0, by simp⟩
                  · simp only [if_neg h4]
                    by_cases h5 : 400 ≤ st ∧ st < 500
                    · simp only [if_pos h5]
                      exact ⟨0, by simp⟩
                    · simp only [if_neg h5]
                      by_cases h6 : 500 ≤ st
                      · simp only [if_pos h6]
                        obtain ⟨k, hk1, hk2⟩ := ih s1 (wait * 2) r1 (hIdx + 1)
                          (sleeps ++ [wait])
                        refine ⟨k + 1, ?_, ?_⟩
                        · rw [hk1]; simp; omega
                        · rw [hk2]; ring
                      · simp only [if_neg h6]
                        exact ⟨0, by simp⟩
        · exact ⟨0, by simp⟩
  obtain ⟨k, hk1, hk2⟩ := key max_retries s BASE_WAIT 0 0 []
  unfold HubSpotAPI.request at *
  rw [hk2, hk1]
  simp

/-- One caller's rate window: the count of requests observed in the current
window and the instant the window started. -/
structure RateWindow where
  count : Nat
  start : Int
deriving Repr, DecidableEq

/-- Modelled from the spec: the file app/utils/rate_limiting.py is imported
by app.utils and app.routes and exercised by tests/unit/test_rate_limiter.py,
but its source is not in the repository snapshot. The limiter follows the
specification's InboundRateLimiter algorithm: a per-caller window map, a
configured limit compared strictly greater-than, and a reset interval after
which a caller's window is replaced by a fresh one. -/
structure RateLimiter where
  limit : Nat
  reset_time : Int
  requests : List (String × RateWindow)
deriving Repr, DecidableEq

namespace RateLimiter

/-- Lookup of a caller key in the window map. -/
def lookupWindow (m : List (String × RateWindow)) (key : String) :
    Option RateWindow :=
  match m with
  | [] => none
  | (k, w) :: rest => if k = key then some w else lookupWindow rest key

/-- Store a caller's window in the map, replacing any existing entry. -/
def setWindow (m : List (String × RateWindow)) (key : String) (w : RateWindow) :
    List (String × RateWindow) :=
  match m with
  | [] => [(key, w)]
  | (k, v) :: rest =>
      if k = key then (key, w) :: rest else (k, v) :: setWindow rest key w

/-- Modelled from the spec: is_rate_limited looks up the caller's window;
when absent it creates one with count 1 and returns not-limited; when the
reset interval has elapsed since the window's start it replaces the window
with a fresh one and returns not-limited; otherwise it increments the count
and reports limited exactly when the incremented count strictly exceeds the
configured limit. -/
def is_rate_limited (rl : RateLimiter) (key : String) (now : Int) :
    Bool × RateLimiter :=
  match lookupWindow rl.requests key with
  | none =>
      (false, { rl with requests := setWindow rl.requests key ⟨1, now⟩ })
  | some w =>
      if rl.reset_time ≤ now - w.start then
        (false, { rl with requests := setWindow rl.requests key ⟨1, now⟩ })
      else
        (decide (rl.limit < w.count + 1),
          { rl with requests := setWindow rl.requests key ⟨w.count + 1, w.start⟩ })

/-- A sequence of n consecutive is_rate_limited calls for one caller key at
one instant, collecting the verdicts in order. -/
def callSeq (key : String) (now : Int) : Nat → RateLimiter → List Bool × RateLimiter
  | 0, rl => ([], rl)
  | n + 1, rl =>
      ((is_rate_limited rl key now).1 ::
          (callSeq key now n (is_rate_limited rl key now).2).1,
        (callSeq key now n (is_rate_limited rl key now).2).2)

/-- Looking up a key just stored finds the stored window. -/
theorem lookupWindow_setWindow (m : List (String × RateWindow)) (key : String)
    (w : RateWindow) : lookupWindow (setWindow m key w) key = some w := by
  induction m with
  | nil => simp [setWindow, lookupWindow]
  | cons p rest ih =>
      rcases p with ⟨k, v⟩
      by_cases h : k = key
      · simp [setWindow, lookupWindow, h]
      · simp [setWindow, lookupWindow, h, ih]

/-- Storing twice under the same key keeps only the second window. -/
theorem setWindow_setWindow (m : List (String × RateWindow)) (key : String)
    (w w' : RateWindow) :
    setWindow (setWindow m key w) key w' = setWindow m key w' := by
  induction m with
  | nil => simp [setWindow]
  | cons p rest ih =>
      rcases p with ⟨k, v⟩
      by_cases h : k = key
      · simp [setWindow, h]
      · simp [setWindow, h, ih]

/-- The verdicts of n consecutive checks within one open window whose count
stands at c: each check compares the incremented count strictly against the
limit. -/
def verdicts (limit c : Nat) : Nat → List Bool
  | 0 => []
  | n + 1 => decide (limit < c + 1) :: verdicts limit (c + 1) n

/-- As long as the count stays within the limit, every verdict is
not-limited. -/
theorem verdicts_all_false : ∀ (n c limit : Nat), c + n ≤ limit →
    verdicts limit c n = List.replicate n false := by
  intro n
  induction n with
  | zero => intro c limit h; rfl
  | succ n ih =>
      intro c limit h
      rw [verdicts, ih (c + 1) limit (by omega), List.replicate_succ]
      have : ¬ limit < c + 1 := by omega
      simp [this]

/-- Within an open window, repeated calls for the same key keep incrementing
the stored count, each verdict comparing the incremented count strictly
against the limit. -/
theorem callSeq_saturating (limit : Nat) (rt : Int)
    (m : List (String × RateWindow)) (key : String) (now : Int)
    (hrt : 0 < rt) :
    ∀ n c, callSeq key now n ⟨limit, rt, setWindow m key ⟨c, now⟩⟩ =
      (verdicts limit c n, ⟨limit, rt, setWindow m key ⟨c + n, now⟩⟩) := by
  intro n
  induction n with
  | zero => intro c; simp [callSeq, verdicts]
  | succ n ih =>
      intro c
      have hstep : is_rate_limited ⟨limit, rt, setWindow m key ⟨c, now⟩⟩ key now =
          (decide (limit < c + 1),
            ⟨limit, rt, setWindow m key ⟨c + 1, now⟩⟩) := by
        have hnot : ¬ rt ≤ (0 : Int) := by omega
        simp [is_rate_limited, lookupWindow_setWindow, hnot,
          setWindow_setWindow]
      rw [callSeq, hstep]
      simp only [ih (c + 1)]
      rw [verdicts]
      have hc : c + 1 + n = c + (n + 1) := by omega
      rw [hc]

end RateLimiter

/-- C7: starting from a fresh window for a caller key (no entry yet), the
first limit calls within one window all answer not-limited while each call
increments the stored count, and the next call within the same window both
records the observation (count limit + 1) and answers limited, the
comparison being strictly greater-than. -/
theorem C7_limiter_threshold (rl : RateLimiter) (key : String) (now : Int)
    (hFresh : RateLimiter.lookupWindow rl.requests key = none)
    (hrt : 0 < rl.reset_time) (hlim : 0 < rl.limit) :
    (RateLimiter.callSeq key now rl.limit rl).1 =
      List.replicate rl.limit false
    ∧ RateLimiter.lookupWindow
        (RateLimiter.callSeq key now rl.limit rl).2.requests key =
      some ⟨rl.limit, now⟩
    ∧ (RateLimiter.is_rate_limited
        (RateLimiter.callSeq key now rl.limit rl).2 key now).1 = true
    ∧ RateLimiter.lookupWindow
        (RateLimiter.is_rate_limited
          (RateLimiter.callSeq key now rl.limit rl).2 key now).2.requests key =
      some ⟨rl.limit + 1, now⟩ := by
  rcases rl with ⟨limit, rt, m⟩
  simp only at hFresh hrt hlim ⊢
  obtain ⟨l, rfl⟩ : ∃ l, limit = l + 1 := ⟨limit - 1, by omega⟩
  have hfirst : RateLimiter.is_rate_limited ⟨l + 1, rt, m⟩ key now =
      (false, ⟨l + 1, rt, RateLimiter.setWindow m key ⟨1, now⟩⟩) := by
    simp [RateLimiter.is_rate_limited, hFresh]
  have hrest := RateLimiter.callSeq_saturating (l + 1) rt m key now hrt l 1
  have hseq : RateLimiter.callSeq key now (l + 1) ⟨l + 1, rt, m⟩ =
      (false :: RateLimiter.verdicts (l + 1) 1 l,
        ⟨l + 1, rt, RateLimiter.setWindow m key ⟨1 + l, now⟩⟩) := by
    rw [RateLimiter.callSeq, hfirst]
    simp only [hrest]
  rw [hseq]
  have hmap : RateLimiter.verdicts (l + 1) 1 l = List.replicate l false :=
    RateLimiter.verdicts_all_false l 1 (l + 1) (by omega)
  have hlast : RateLimiter.is_rate_limited
      ⟨l + 1, rt, RateLimiter.setWindow m key ⟨1 + l, now⟩⟩ key now =
        (decide (l + 1 < 1 + l + 1),
          ⟨l + 1, rt, RateLimiter.setWindow m key ⟨1 + l + 1, now⟩⟩) := by
    have hnot : ¬ rt ≤ (0 : Int) := by omega
    simp [RateLimiter.is_rate_limited, RateLimiter.lookupWindow_setWindow,
      hnot, RateLimiter.setWindow_setWindow]
  refine ⟨?_, ?_, ?_, ?_⟩
  · rw [hmap]
    simp [List.replicate_succ]
  · rw [RateLimiter.lookupWindow_setWindow]
    have : 1 + l = l + 1 := by omega
    rw [this]
  · rw [hlast]
    simp
  · rw [hlast]
    simp only
    rw [RateLimiter.lookupWindow_setWindow]
    have : 1 + l + 1 = l + 1 + 1 := by omega
    rw [this]

/-- Witness for C7 at a concrete limiter with limit 2 and a 60-second
window: two calls pass, the third is limited. -/
theorem C7_witness :
    (RateLimiter.callSeq "a" 0 (2 : Nat) ⟨2, 60, []⟩).1 =
      List.replicate 2 false
    ∧ RateLimiter.lookupWindow
        (RateLimiter.callSeq "a" 0 (2 : Nat) ⟨2, 60, []⟩).2.requests "a" =
      some ⟨2, 0⟩
    ∧ (RateLimiter.is_rate_limited
        (RateLimiter.callSeq "a" 0 (2 : Nat) ⟨2, 60, []⟩).2 "a" 0).1 = true
    ∧ RateLimiter.lookupWindow
        (RateLimiter.is_rate_limited
          (RateLimiter.callSeq "a" 0 (2 : Nat) ⟨2, 60, []⟩).2 "a" 0).2.requests
          "a" =
      some ⟨3, 0⟩ :=
  C7_limiter_threshold ⟨2, 60, []⟩ "a" 0 rfl (by decide) (by decide)
